import Mathlib

/-!
Shallow embedding of the Titan checkpoint key remapper
(`src/convert_weights_working.py`) and of the topology-detection code in its
`__main__` block, together with proofs of the specification claims.

A checkpoint is modelled as an association list from parameter names
(strings) to tensors (an arbitrary type `α`; the converter never inspects
tensor contents).  Python `dict` assignment `d[k] = v` is modelled by
`dictInsert` (replace the first binding of `k` if present, else append),
`state_dict[k]` by `dictGet`, and a raised `KeyError k` by
`Except.error k`.
-/

set_option maxRecDepth 100000

namespace Titan

/-- Python dict assignment `d[k] = v`: replace the binding of `k` in place if
present, otherwise append a new binding at the end. -/
def dictInsert {α : Type} (k : String) (v : α) : List (String × α) → List (String × α)
  | [] => [(k, v)]
  | p :: rest => if p.1 = k then (k, v) :: rest else p :: dictInsert k v rest

/-- The six stem assignments of `convert_to_tch_format` (lines 12-17), as
(destination key, source key) pairs in program order. -/
def convBlockPairs : List (String × String) :=
  [("conv_block.weight", "convBlock1.conv1.weight"),
   ("conv_block.bias", "convBlock1.conv1.bias"),
   ("conv_block.weight__2", "convBlock1.bn1.weight"),
   ("conv_block.bias__3", "convBlock1.bn1.bias"),
   ("conv_block.running_mean", "convBlock1.bn1.running_mean"),
   ("conv_block.running_var", "convBlock1.bn1.running_var")]

/-- The twelve assignments of one iteration of the residual-block loop
(lines 20-55), in program order: four common pairs, then the block-0
literal suffixes 8, 9, 12, 13, 14, 15, 16, 17, or for `i ≥ 1` the suffixes
derived from `base = 20 + (i - 1) * 12`. -/
def resBlockPairs (i : Nat) : List (String × String) :=
  let py := "residualBlocks." ++ Nat.repr i
  let tch := "res_block_" ++ Nat.repr i
  [(tch ++ ".weight", py ++ ".conv1.weight"),
   (tch ++ ".bias", py ++ ".conv1.bias"),
   (tch ++ ".running_mean", py ++ ".bn1.running_mean"),
   (tch ++ ".running_var", py ++ ".bn1.running_var")] ++
  (if i = 0 then
    [(tch ++ ".weight__8", py ++ ".bn2.weight"),
     (tch ++ ".bias__9", py ++ ".bn2.bias"),
     (tch ++ ".bias__12", py ++ ".bn1.bias"),
     (tch ++ ".weight__13", py ++ ".conv2.weight"),
     (tch ++ ".weight__14", py ++ ".bn1.weight"),
     (tch ++ ".bias__15", py ++ ".conv2.bias"),
     (tch ++ ".running_mean__16", py ++ ".bn2.running_mean"),
     (tch ++ ".running_var__17", py ++ ".bn2.running_var")]
  else
    let base := 20 + (i - 1) * 12
    [(tch ++ ".weight__" ++ Nat.repr base, py ++ ".bn2.weight"),
     (tch ++ ".bias__" ++ Nat.repr (base + 1), py ++ ".bn2.bias"),
     (tch ++ ".bias__" ++ Nat.repr (base + 4), py ++ ".bn1.bias"),
     (tch ++ ".weight__" ++ Nat.repr (base + 5), py ++ ".conv2.weight"),
     (tch ++ ".weight__" ++ Nat.repr (base + 6), py ++ ".bn1.weight"),
     (tch ++ ".bias__" ++ Nat.repr (base + 7), py ++ ".conv2.bias"),
     (tch ++ ".running_mean__" ++ Nat.repr (base + 8), py ++ ".bn2.running_mean"),
     (tch ++ ".running_var__" ++ Nat.repr (base + 9), py ++ ".bn2.running_var")])

/-- The ten value-head assignments (lines 58-79): the 10×128 literal suffixes
when `num_blocks = 10`, else the 20×256 literal suffixes. -/
def valueHeadPairs (num_blocks : Nat) : List (String × String) :=
  if num_blocks = 10 then
    [("value_head.weight", "valueHead.conv1.weight"),
     ("value_head.bias", "valueHead.conv1.bias"),
     ("value_head.weight__128", "valueHead.bn1.weight"),
     ("value_head.bias__129", "valueHead.bn1.bias"),
     ("value_head.running_mean", "valueHead.bn1.running_mean"),
     ("value_head.running_var", "valueHead.bn1.running_var"),
     ("value_head.weight__133", "valueHead.fc1.weight"),
     ("value_head.bias__132", "valueHead.fc1.bias"),
     ("value_head.weight__135", "valueHead.fc2.weight"),
     ("value_head.bias__134", "valueHead.fc2.bias")]
  else
    [("value_head.weight", "valueHead.conv1.weight"),
     ("value_head.bias", "valueHead.conv1.bias"),
     ("value_head.weight__248", "valueHead.bn1.weight"),
     ("value_head.bias__249", "valueHead.bn1.bias"),
     ("value_head.running_mean", "valueHead.bn1.running_mean"),
     ("value_head.running_var", "valueHead.bn1.running_var"),
     ("value_head.weight__253", "valueHead.fc1.weight"),
     ("value_head.bias__252", "valueHead.fc1.bias"),
     ("value_head.weight__255", "valueHead.fc2.weight"),
     ("value_head.bias__254", "valueHead.fc2.bias")]

/-- The eight policy-head assignments (lines 82-99): the 10×128 literal
suffixes when `num_blocks = 10`, else the 20×256 literal suffixes. -/
def policyHeadPairs (num_blocks : Nat) : List (String × String) :=
  if num_blocks = 10 then
    [("policy_head.weight", "policyHead.conv1.weight"),
     ("policy_head.bias", "policyHead.conv1.bias"),
     ("policy_head.weight__138", "policyHead.bn1.weight"),
     ("policy_head.bias__139", "policyHead.bn1.bias"),
     ("policy_head.running_mean", "policyHead.bn1.running_mean"),
     ("policy_head.running_var", "policyHead.bn1.running_var"),
     ("policy_head.weight__143", "policyHead.fc1.weight"),
     ("policy_head.bias__142", "policyHead.fc1.bias")]
  else
    [("policy_head.weight", "policyHead.conv1.weight"),
     ("policy_head.bias", "policyHead.conv1.bias"),
     ("policy_head.weight__258", "policyHead.bn1.weight"),
     ("policy_head.bias__259", "policyHead.bn1.bias"),
     ("policy_head.running_mean", "policyHead.bn1.running_mean"),
     ("policy_head.running_var", "policyHead.bn1.running_var"),
     ("policy_head.weight__263", "policyHead.fc1.weight"),
     ("policy_head.bias__262", "policyHead.fc1.bias")]

/-- All assignments of `convert_to_tch_format`, as (destination key,
source key) pairs in program order. -/
def tchMapping (num_blocks : Nat) : List (String × String) :=
  convBlockPairs
    ++ ((List.range num_blocks).map resBlockPairs).flatten
    ++ valueHeadPairs num_blocks
    ++ policyHeadPairs num_blocks

/-- Python dict subscript `d[k]`: the value of the first binding of `k`,
if any. -/
def dictGet {α : Type} (k : String) : List (String × α) → Option α
  | [] => none
  | p :: rest => if p.1 = k then some p.2 else dictGet k rest

/-- Run a list of assignments `tch_dict[dst] = state_dict[src]` in order,
starting from the accumulated dict `acc`; a failed source lookup raises
`KeyError src`, modelled as `Except.error src`. -/
def applyPairs {α : Type} (state_dict : List (String × α)) :
    List (String × String) → List (String × α) → Except String (List (String × α))
  | [], acc => Except.ok acc
  | (dst, src) :: rest, acc =>
    match dictGet src state_dict with
    | none => Except.error src
    | some t => applyPairs state_dict rest (dictInsert dst t acc)

/-- `convert_to_tch_format(state_dict, num_blocks, num_filters)`
(lines 7-101).  The `num_filters` argument is accepted but, exactly as in
the source, never used. -/
def convert_to_tch_format {α : Type} (state_dict : List (String × α))
    (num_blocks num_filters : Nat) : Except String (List (String × α)) :=
  applyPairs state_dict (tchMapping num_blocks) []

/-- The source keys required by `convert_to_tch_format` for a given
`num_blocks`, in the order the program reads them. -/
def pySrcKeys (num_blocks : Nat) : List String :=
  (tchMapping num_blocks).map Prod.snd

/-- The destination keys produced by `convert_to_tch_format` for a given
`num_blocks`, in the order the program writes them. -/
def tchDstKeys (num_blocks : Nat) : List String :=
  (tchMapping num_blocks).map Prod.fst

/-- The key list of `dictInsert k v l`, as a function of the key list of
`l` alone. -/
def insertKeyName (k : String) : List String → List String
  | [] => [k]
  | k' :: ks => if k' = k then k :: ks else k' :: insertKeyName k ks


/-- Python `str.split('.')` at the character-list level: splits on every
`'.'`, keeping empty groups, so that `splitDots "a.b".data = [['a'], ['b']]`. -/
def splitDots : List Char → List (List Char)
  | [] => [[]]
  | c :: rest =>
    if c = '.' then [] :: splitDots rest
    else
      match splitDots rest with
      | [] => [[c]]
      | g :: gs => (c :: g) :: gs

/-- The dotted-path component of a key at position `i`, or `[]` if there are
fewer components (used as a bucket tag for disjointness arguments). -/
def keyPart (i : Nat) (k : String) : List Char :=
  ((splitDots k.data).drop i).headD []

/-- The destination keys of one residual block. -/
def resDstKeys (i : Nat) : List String := (resBlockPairs i).map Prod.fst

/-- The source keys of one residual block. -/
def resSrcKeys (i : Nat) : List String := (resBlockPairs i).map Prod.snd

/-- The 144 destination keys of the 10×128 preset, written out literally. -/
def dstKeySet10x128 : List String :=
  ["conv_block.weight",
   "conv_block.bias",
   "conv_block.weight__2",
   "conv_block.bias__3",
   "conv_block.running_mean",
   "conv_block.running_var",
   "res_block_0.weight",
   "res_block_0.bias",
   "res_block_0.running_mean",
   "res_block_0.running_var",
   "res_block_0.weight__8",
   "res_block_0.bias__9",
   "res_block_0.bias__12",
   "res_block_0.weight__13",
   "res_block_0.weight__14",
   "res_block_0.bias__15",
   "res_block_0.running_mean__16",
   "res_block_0.running_var__17",
   "res_block_1.weight",
   "res_block_1.bias",
   "res_block_1.running_mean",
   "res_block_1.running_var",
   "res_block_1.weight__20",
   "res_block_1.bias__21",
   "res_block_1.bias__24",
   "res_block_1.weight__25",
   "res_block_1.weight__26",
   "res_block_1.bias__27",
   "res_block_1.running_mean__28",
   "res_block_1.running_var__29",
   "res_block_2.weight",
   "res_block_2.bias",
   "res_block_2.running_mean",
   "res_block_2.running_var",
   "res_block_2.weight__32",
   "res_block_2.bias__33",
   "res_block_2.bias__36",
   "res_block_2.weight__37",
   "res_block_2.weight__38",
   "res_block_2.bias__39",
   "res_block_2.running_mean__40",
   "res_block_2.running_var__41",
   "res_block_3.weight",
   "res_block_3.bias",
   "res_block_3.running_mean",
   "res_block_3.running_var",
   "res_block_3.weight__44",
   "res_block_3.bias__45",
   "res_block_3.bias__48",
   "res_block_3.weight__49",
   "res_block_3.weight__50",
   "res_block_3.bias__51",
   "res_block_3.running_mean__52",
   "res_block_3.running_var__53",
   "res_block_4.weight",
   "res_block_4.bias",
   "res_block_4.running_mean",
   "res_block_4.running_var",
   "res_block_4.weight__56",
   "res_block_4.bias__57",
   "res_block_4.bias__60",
   "res_block_4.weight__61",
   "res_block_4.weight__62",
   "res_block_4.bias__63",
   "res_block_4.running_mean__64",
   "res_block_4.running_var__65",
   "res_block_5.weight",
   "res_block_5.bias",
   "res_block_5.running_mean",
   "res_block_5.running_var",
   "res_block_5.weight__68",
   "res_block_5.bias__69",
   "res_block_5.bias__72",
   "res_block_5.weight__73",
   "res_block_5.weight__74",
   "res_block_5.bias__75",
   "res_block_5.running_mean__76",
   "res_block_5.running_var__77",
   "res_block_6.weight",
   "res_block_6.bias",
   "res_block_6.running_mean",
   "res_block_6.running_var",
   "res_block_6.weight__80",
   "res_block_6.bias__81",
   "res_block_6.bias__84",
   "res_block_6.weight__85",
   "res_block_6.weight__86",
   "res_block_6.bias__87",
   "res_block_6.running_mean__88",
   "res_block_6.running_var__89",
   "res_block_7.weight",
   "res_block_7.bias",
   "res_block_7.running_mean",
   "res_block_7.running_var",
   "res_block_7.weight__92",
   "res_block_7.bias__93",
   "res_block_7.bias__96",
   "res_block_7.weight__97",
   "res_block_7.weight__98",
   "res_block_7.bias__99",
   "res_block_7.running_mean__100",
   "res_block_7.running_var__101",
   "res_block_8.weight",
   "res_block_8.bias",
   "res_block_8.running_mean",
   "res_block_8.running_var",
   "res_block_8.weight__104",
   "res_block_8.bias__105",
   "res_block_8.bias__108",
   "res_block_8.weight__109",
   "res_block_8.weight__110",
   "res_block_8.bias__111",
   "res_block_8.running_mean__112",
   "res_block_8.running_var__113",
   "res_block_9.weight",
   "res_block_9.bias",
   "res_block_9.running_mean",
   "res_block_9.running_var",
   "res_block_9.weight__116",
   "res_block_9.bias__117",
   "res_block_9.bias__120",
   "res_block_9.weight__121",
   "res_block_9.weight__122",
   "res_block_9.bias__123",
   "res_block_9.running_mean__124",
   "res_block_9.running_var__125",
   "value_head.weight",
   "value_head.bias",
   "value_head.weight__128",
   "value_head.bias__129",
   "value_head.running_mean",
   "value_head.running_var",
   "value_head.weight__133",
   "value_head.bias__132",
   "value_head.weight__135",
   "value_head.bias__134",
   "policy_head.weight",
   "policy_head.bias",
   "policy_head.weight__138",
   "policy_head.bias__139",
   "policy_head.running_mean",
   "policy_head.running_var",
   "policy_head.weight__143",
   "policy_head.bias__142"]

/-- The 264 destination keys of the 20×256 preset, written out literally. -/
def dstKeySet20x256 : List String :=
  ["conv_block.weight",
   "conv_block.bias",
   "conv_block.weight__2",
   "conv_block.bias__3",
   "conv_block.running_mean",
   "conv_block.running_var",
   "res_block_0.weight",
   "res_block_0.bias",
   "res_block_0.running_mean",
   "res_block_0.running_var",
   "res_block_0.weight__8",
   "res_block_0.bias__9",
   "res_block_0.bias__12",
   "res_block_0.weight__13",
   "res_block_0.weight__14",
   "res_block_0.bias__15",
   "res_block_0.running_mean__16",
   "res_block_0.running_var__17",
   "res_block_1.weight",
   "res_block_1.bias",
   "res_block_1.running_mean",
   "res_block_1.running_var",
   "res_block_1.weight__20",
   "res_block_1.bias__21",
   "res_block_1.bias__24",
   "res_block_1.weight__25",
   "res_block_1.weight__26",
   "res_block_1.bias__27",
   "res_block_1.running_mean__28",
   "res_block_1.running_var__29",
   "res_block_2.weight",
   "res_block_2.bias",
   "res_block_2.running_mean",
   "res_block_2.running_var",
   "res_block_2.weight__32",
   "res_block_2.bias__33",
   "res_block_2.bias__36",
   "res_block_2.weight__37",
   "res_block_2.weight__38",
   "res_block_2.bias__39",
   "res_block_2.running_mean__40",
   "res_block_2.running_var__41",
   "res_block_3.weight",
   "res_block_3.bias",
   "res_block_3.running_mean",
   "res_block_3.running_var",
   "res_block_3.weight__44",
   "res_block_3.bias__45",
   "res_block_3.bias__48",
   "res_block_3.weight__49",
   "res_block_3.weight__50",
   "res_block_3.bias__51",
   "res_block_3.running_mean__52",
   "res_block_3.running_var__53",
   "res_block_4.weight",
   "res_block_4.bias",
   "res_block_4.running_mean",
   "res_block_4.running_var",
   "res_block_4.weight__56",
   "res_block_4.bias__57",
   "res_block_4.bias__60",
   "res_block_4.weight__61",
   "res_block_4.weight__62",
   "res_block_4.bias__63",
   "res_block_4.running_mean__64",
   "res_block_4.running_var__65",
   "res_block_5.weight",
   "res_block_5.bias",
   "res_block_5.running_mean",
   "res_block_5.running_var",
   "res_block_5.weight__68",
   "res_block_5.bias__69",
   "res_block_5.bias__72",
   "res_block_5.weight__73",
   "res_block_5.weight__74",
   "res_block_5.bias__75",
   "res_block_5.running_mean__76",
   "res_block_5.running_var__77",
   "res_block_6.weight",
   "res_block_6.bias",
   "res_block_6.running_mean",
   "res_block_6.running_var",
   "res_block_6.weight__80",
   "res_block_6.bias__81",
   "res_block_6.bias__84",
   "res_block_6.weight__85",
   "res_block_6.weight__86",
   "res_block_6.bias__87",
   "res_block_6.running_mean__88",
   "res_block_6.running_var__89",
   "res_block_7.weight",
   "res_block_7.bias",
   "res_block_7.running_mean",
   "res_block_7.running_var",
   "res_block_7.weight__92",
   "res_block_7.bias__93",
   "res_block_7.bias__96",
   "res_block_7.weight__97",
   "res_block_7.weight__98",
   "res_block_7.bias__99",
   "res_block_7.running_mean__100",
   "res_block_7.running_var__101",
   "res_block_8.weight",
   "res_block_8.bias",
   "res_block_8.running_mean",
   "res_block_8.running_var",
   "res_block_8.weight__104",
   "res_block_8.bias__105",
   "res_block_8.bias__108",
   "res_block_8.weight__109",
   "res_block_8.weight__110",
   "res_block_8.bias__111",
   "res_block_8.running_mean__112",
   "res_block_8.running_var__113",
   "res_block_9.weight",
   "res_block_9.bias",
   "res_block_9.running_mean",
   "res_block_9.running_var",
   "res_block_9.weight__116",
   "res_block_9.bias__117",
   "res_block_9.bias__120",
   "res_block_9.weight__121",
   "res_block_9.weight__122",
   "res_block_9.bias__123",
   "res_block_9.running_mean__124",
   "res_block_9.running_var__125",
   "res_block_10.weight",
   "res_block_10.bias",
   "res_block_10.running_mean",
   "res_block_10.running_var",
   "res_block_10.weight__128",
   "res_block_10.bias__129",
   "res_block_10.bias__132",
   "res_block_10.weight__133",
   "res_block_10.weight__134",
   "res_block_10.bias__135",
   "res_block_10.running_mean__136",
   "res_block_10.running_var__137",
   "res_block_11.weight",
   "res_block_11.bias",
   "res_block_11.running_mean",
   "res_block_11.running_var",
   "res_block_11.weight__140",
   "res_block_11.bias__141",
   "res_block_11.bias__144",
   "res_block_11.weight__145",
   "res_block_11.weight__146",
   "res_block_11.bias__147",
   "res_block_11.running_mean__148",
   "res_block_11.running_var__149",
   "res_block_12.weight",
   "res_block_12.bias",
   "res_block_12.running_mean",
   "res_block_12.running_var",
   "res_block_12.weight__152",
   "res_block_12.bias__153",
   "res_block_12.bias__156",
   "res_block_12.weight__157",
   "res_block_12.weight__158",
   "res_block_12.bias__159",
   "res_block_12.running_mean__160",
   "res_block_12.running_var__161",
   "res_block_13.weight",
   "res_block_13.bias",
   "res_block_13.running_mean",
   "res_block_13.running_var",
   "res_block_13.weight__164",
   "res_block_13.bias__165",
   "res_block_13.bias__168",
   "res_block_13.weight__169",
   "res_block_13.weight__170",
   "res_block_13.bias__171",
   "res_block_13.running_mean__172",
   "res_block_13.running_var__173",
   "res_block_14.weight",
   "res_block_14.bias",
   "res_block_14.running_mean",
   "res_block_14.running_var",
   "res_block_14.weight__176",
   "res_block_14.bias__177",
   "res_block_14.bias__180",
   "res_block_14.weight__181",
   "res_block_14.weight__182",
   "res_block_14.bias__183",
   "res_block_14.running_mean__184",
   "res_block_14.running_var__185",
   "res_block_15.weight",
   "res_block_15.bias",
   "res_block_15.running_mean",
   "res_block_15.running_var",
   "res_block_15.weight__188",
   "res_block_15.bias__189",
   "res_block_15.bias__192",
   "res_block_15.weight__193",
   "res_block_15.weight__194",
   "res_block_15.bias__195",
   "res_block_15.running_mean__196",
   "res_block_15.running_var__197",
   "res_block_16.weight",
   "res_block_16.bias",
   "res_block_16.running_mean",
   "res_block_16.running_var",
   "res_block_16.weight__200",
   "res_block_16.bias__201",
   "res_block_16.bias__204",
   "res_block_16.weight__205",
   "res_block_16.weight__206",
   "res_block_16.bias__207",
   "res_block_16.running_mean__208",
   "res_block_16.running_var__209",
   "res_block_17.weight",
   "res_block_17.bias",
   "res_block_17.running_mean",
   "res_block_17.running_var",
   "res_block_17.weight__212",
   "res_block_17.bias__213",
   "res_block_17.bias__216",
   "res_block_17.weight__217",
   "res_block_17.weight__218",
   "res_block_17.bias__219",
   "res_block_17.running_mean__220",
   "res_block_17.running_var__221",
   "res_block_18.weight",
   "res_block_18.bias",
   "res_block_18.running_mean",
   "res_block_18.running_var",
   "res_block_18.weight__224",
   "res_block_18.bias__225",
   "res_block_18.bias__228",
   "res_block_18.weight__229",
   "res_block_18.weight__230",
   "res_block_18.bias__231",
   "res_block_18.running_mean__232",
   "res_block_18.running_var__233",
   "res_block_19.weight",
   "res_block_19.bias",
   "res_block_19.running_mean",
   "res_block_19.running_var",
   "res_block_19.weight__236",
   "res_block_19.bias__237",
   "res_block_19.bias__240",
   "res_block_19.weight__241",
   "res_block_19.weight__242",
   "res_block_19.bias__243",
   "res_block_19.running_mean__244",
   "res_block_19.running_var__245",
   "value_head.weight",
   "value_head.bias",
   "value_head.weight__248",
   "value_head.bias__249",
   "value_head.running_mean",
   "value_head.running_var",
   "value_head.weight__253",
   "value_head.bias__252",
   "value_head.weight__255",
   "value_head.bias__254",
   "policy_head.weight",
   "policy_head.bias",
   "policy_head.weight__258",
   "policy_head.bias__259",
   "policy_head.running_mean",
   "policy_head.running_var",
   "policy_head.weight__263",
   "policy_head.bias__262"]

/-- The 36 destination keys produced for `num_blocks = 1` (stem, residual block 0, and the 20×256 head preset, since 1 ≠ 10), written out literally. -/
def dstKeySetOneBlock : List String :=
  ["conv_block.weight",
   "conv_block.bias",
   "conv_block.weight__2",
   "conv_block.bias__3",
   "conv_block.running_mean",
   "conv_block.running_var",
   "res_block_0.weight",
   "res_block_0.bias",
   "res_block_0.running_mean",
   "res_block_0.running_var",
   "res_block_0.weight__8",
   "res_block_0.bias__9",
   "res_block_0.bias__12",
   "res_block_0.weight__13",
   "res_block_0.weight__14",
   "res_block_0.bias__15",
   "res_block_0.running_mean__16",
   "res_block_0.running_var__17",
   "value_head.weight",
   "value_head.bias",
   "value_head.weight__248",
   "value_head.bias__249",
   "value_head.running_mean",
   "value_head.running_var",
   "value_head.weight__253",
   "value_head.bias__252",
   "value_head.weight__255",
   "value_head.bias__254",
   "policy_head.weight",
   "policy_head.bias",
   "policy_head.weight__258",
   "policy_head.bias__259",
   "policy_head.running_mean",
   "policy_head.running_var",
   "policy_head.weight__263",
   "policy_head.bias__262"]

/-- A synthetic source checkpoint for `num_blocks = 1`: exactly the required
source keys, each bound to the tensor value `0`. -/
def sdOne : List (String × Nat) := (pySrcKeys 1).map (fun k => (k, 0))

/-- A second synthetic source checkpoint with the same keys as `sdOne` but
different tensor values. -/
def sdOneB : List (String × Nat) := (pySrcKeys 1).map (fun k => (k, 1))

/-- A synthetic source checkpoint for `num_blocks = 10`: exactly the required
source keys, each bound to the tensor value `0`. -/
def sdTen : List (String × Nat) := (pySrcKeys 10).map (fun k => (k, 0))

/-- The `num_blocks = 1` checkpoint with the single required key
`residualBlocks.0.bn2.running_var` removed. -/
def sdOneMissing : List (String × Nat) :=
  ((pySrcKeys 1).filter (fun s => s != "residualBlocks.0.bn2.running_var")).map (fun k => (k, 0))

/-- The output of converting `sdOne` (computed once, used by witnesses). -/
def outOne : List (String × Nat) :=
  (convert_to_tch_format sdOne 1 128).toOption.getD []

/-- Python `int(s)` as the detection code uses it, i.e. on strings of
decimal digits: `none` models a raised `ValueError` (empty or non-digit
input). -/
def parseIntChars (cs : List Char) : Option Nat :=
  if cs.isEmpty then none
  else if cs.all Char.isDigit then
    some (cs.foldl (fun a c => a * 10 + (c.toNat - 48)) 0)
  else none

/-- A tensor as far as the topology detection observes it: its shape
(`.shape` in the Python source); tensor contents are never read. -/
structure Tensor where
  shape : List Nat
  deriving DecidableEq

/-- Python `k.startswith(p)` at the character-list level. -/
def pyStartsWith (k p : String) : Bool := p.data.isPrefixOf k.data

/-- `int(k.split('.')[1])` as applied to checkpoint keys on line 117:
`none` models an `IndexError` (fewer than two components) or `ValueError`
(non-numeric component). -/
def blockIndexOf (k : String) : Option Nat :=
  match (splitDots k.data).drop 1 with
  | [] => none
  | g :: _ => parseIntChars g

/-- Line 117: `num_blocks = max([int(k.split('.')[1]) for k in
state_dict.keys() if k.startswith('residualBlocks.')]) + 1`; `none` models
the exception raised on an empty comprehension or a failed `int(...)`. -/
def detect_num_blocks (keys : List String) : Option Nat :=
  if (keys.filter (fun k => pyStartsWith k "residualBlocks.")).isEmpty then none
  else if ((keys.filter (fun k => pyStartsWith k "residualBlocks.")).map blockIndexOf).all
      Option.isSome then
    some (((((keys.filter (fun k => pyStartsWith k "residualBlocks.")).map
      blockIndexOf).map (fun o => o.getD 0)).foldl Nat.max 0) + 1)
  else none

/-- Line 118: `num_filters = state_dict['convBlock1.conv1.weight'].shape[0]`;
`none` models a `KeyError` or `IndexError`. -/
def detect_num_filters (state_dict : List (String × Tensor)) : Option Nat :=
  match dictGet "convBlock1.conv1.weight" state_dict with
  | none => none
  | some t => t.shape.head?

/-- The source-key inventory of a checkpoint whose residual-block indices
are exactly the list `I`: the stem keys, the residual keys for each index
in `I`, and the head keys (whose source names do not depend on the
preset).  `canonicalSrcKeys (List.range nb) = pySrcKeys nb`. -/
def canonicalSrcKeys (I : List Nat) : List String :=
  convBlockPairs.map Prod.snd
    ++ I.flatMap resSrcKeys
    ++ (valueHeadPairs 20).map Prod.snd
    ++ (policyHeadPairs 20).map Prod.snd

/-- A shape-bearing checkpoint for `num_blocks = 1`, `num_filters = 128`. -/
def sdOneT : List (String × Tensor) :=
  (canonicalSrcKeys [0]).map (fun k => (k, ⟨[128, 18, 3, 3]⟩))

theorem dictGet_isSome_iff_mem {α : Type} (k : String) (l : List (String × α)) :
    (dictGet k l).isSome = true ↔ k ∈ l.map Prod.fst := by
  induction l with
  | nil => simp [dictGet]
  | cons p rest ih =>
    simp only [dictGet, List.map_cons, List.mem_cons]
    by_cases h : p.1 = k
    · simp [h]
    · rw [if_neg h, ih]
      exact ⟨Or.inr, fun h' => h'.resolve_left (fun he => h he.symm)⟩

theorem dictGet_dictInsert {α : Type} (k d : String) (v : α) (l : List (String × α)) :
    dictGet d (dictInsert k v l) = if d = k then some v else dictGet d l := by
  induction l with
  | nil =>
    by_cases h : d = k
    · subst h; simp [dictInsert, dictGet]
    · have h1 : ¬ k = d := fun hh => h hh.symm
      simp [dictInsert, dictGet, h, h1]
  | cons p rest ih =>
    by_cases hp : p.1 = k
    · by_cases h : d = k
      · subst h; simp [dictInsert, dictGet, hp]
      · have h1 : ¬ k = d := fun hh => h hh.symm
        have h2 : ¬ p.1 = d := fun hh => h (hh.symm.trans hp)
        simp [dictInsert, dictGet, hp, h, h1, h2]
    · by_cases hd : p.1 = d
      · have hdk : ¬ d = k := fun hh => hp ((hd.symm ▸ hh : p.1 = k))
        simp [dictInsert, dictGet, hp, hd, hdk]
      · simp [dictInsert, dictGet, hp, hd, ih]

theorem dictInsert_of_not_mem {α : Type} (k : String) (v : α) (l : List (String × α))
    (h : k ∉ l.map Prod.fst) : dictInsert k v l = l ++ [(k, v)] := by
  induction l with
  | nil => rfl
  | cons p rest ih =>
    simp only [List.map_cons, List.mem_cons] at h
    push_neg at h
    simp [dictInsert, Ne.symm h.1, ih h.2]

theorem map_fst_dictInsert {α : Type} (k : String) (v : α) (l : List (String × α)) :
    (dictInsert k v l).map Prod.fst = insertKeyName k (l.map Prod.fst) := by
  induction l with
  | nil => rfl
  | cons p rest ih =>
    by_cases h : p.1 = k <;> simp [dictInsert, insertKeyName, h, ih]

theorem applyPairs_isOk {α : Type} (sd : List (String × α)) :
    ∀ (m : List (String × String)) (acc : List (String × α)),
      (∀ p ∈ m, (dictGet p.2 sd).isSome = true) →
      ∃ out, applyPairs sd m acc = Except.ok out := by
  intro m
  induction m with
  | nil => exact fun acc _ => ⟨acc, rfl⟩
  | cons q rest ih =>
    intro acc h
    obtain ⟨d, s⟩ := q
    obtain ⟨t, ht⟩ := Option.isSome_iff_exists.mp (h _ (List.mem_cons_self _ _))
    rw [applyPairs, ht]
    exact ih (dictInsert d t acc) (fun p hp => h p (List.mem_cons_of_mem _ hp))

theorem applyPairs_keys {α : Type} (sd : List (String × α)) :
    ∀ (m : List (String × String)) (acc : List (String × α)),
      (∀ p ∈ m, (dictGet p.2 sd).isSome = true) →
      (acc.map Prod.fst ++ m.map Prod.fst).Nodup →
      ∃ out, applyPairs sd m acc = Except.ok out ∧
        out.map Prod.fst = acc.map Prod.fst ++ m.map Prod.fst := by
  intro m
  induction m with
  | nil => exact fun acc _ _ => ⟨acc, rfl, by simp⟩
  | cons q rest ih =>
    intro acc h hnd
    obtain ⟨d, s⟩ := q
    obtain ⟨t, ht⟩ := Option.isSome_iff_exists.mp (h _ (List.mem_cons_self _ _))
    rw [applyPairs, ht]
    have hd_not : d ∉ acc.map Prod.fst := by
      have hdisj := (List.nodup_append.mp hnd).2.2
      intro hmem
      exact hdisj hmem (by simp)
    have hins : dictInsert d t acc = acc ++ [(d, t)] := dictInsert_of_not_mem d t acc hd_not
    have hnd' : ((dictInsert d t acc).map Prod.fst ++ rest.map Prod.fst).Nodup := by
      rw [hins]
      simpa using hnd
    obtain ⟨out, hout, hkeys⟩ :=
      ih (dictInsert d t acc) (fun p hp => h p (List.mem_cons_of_mem _ hp)) hnd'
    refine ⟨out, hout, ?_⟩
    rw [hkeys, hins]
    simp

theorem applyPairs_error {α : Type} (sd : List (String × α)) (k : String)
    (hmiss : dictGet k sd = none) :
    ∀ (m : List (String × String)) (acc : List (String × α)),
      (∃ p ∈ m, p.2 = k) →
      (∀ p ∈ m, p.2 ≠ k → (dictGet p.2 sd).isSome = true) →
      applyPairs sd m acc = Except.error k := by
  intro m
  induction m with
  | nil => intro acc hmem _; simp at hmem
  | cons q rest ih =>
    intro acc hmem hrest
    obtain ⟨d, s⟩ := q
    by_cases hs : s = k
    · subst hs
      rw [applyPairs, hmiss]
    · obtain ⟨t, ht⟩ :=
        Option.isSome_iff_exists.mp (hrest _ (List.mem_cons_self _ _) hs)
      rw [applyPairs, ht]
      obtain ⟨p, hp, hpk⟩ := hmem
      rcases List.mem_cons.mp hp with hph | hpt
      · rw [hph] at hpk
        exact absurd hpk hs
      · exact ih (dictInsert d t acc) ⟨p, hpt, hpk⟩
          (fun p hp h => hrest p (List.mem_cons_of_mem _ hp) h)

theorem applyPairs_values {α : Type} (sd : List (String × α)) :
    ∀ (m : List (String × String)) (acc out : List (String × α)),
      applyPairs sd m acc = Except.ok out →
      ∀ dst t, dictGet dst out = some t →
        dictGet dst acc = some t ∨ ∃ src, (dst, src) ∈ m ∧ dictGet src sd = some t := by
  intro m
  induction m with
  | nil =>
    intro acc out hout dst t h
    cases hout
    exact Or.inl h
  | cons q rest ih =>
    intro acc out hout dst t h
    obtain ⟨d, s⟩ := q
    rw [applyPairs] at hout
    cases hget : dictGet s sd with
    | none => rw [hget] at hout; exact absurd hout (by simp)
    | some u =>
      rw [hget] at hout
      rcases ih (dictInsert d u acc) out hout dst t h with hacc | ⟨src, hsrc, hval⟩
      · rw [dictGet_dictInsert] at hacc
        by_cases hdk : dst = d
        · refine Or.inr ⟨s, by simp [hdk], ?_⟩
          rw [if_pos hdk] at hacc
          rw [hget, hacc]
        · rw [if_neg hdk] at hacc
          exact Or.inl hacc
      · exact Or.inr ⟨src, List.mem_cons_of_mem _ hsrc, hval⟩

theorem applyPairs_domain {α β : Type} (sd1 : List (String × α)) (sd2 : List (String × β))
    (hdom : ∀ k, (dictGet k sd1).isSome = (dictGet k sd2).isSome) :
    ∀ (m : List (String × String)) (acc1 : List (String × α)) (acc2 : List (String × β)),
      acc1.map Prod.fst = acc2.map Prod.fst →
      (applyPairs sd1 m acc1).isOk = (applyPairs sd2 m acc2).isOk ∧
        (∀ o1 o2, applyPairs sd1 m acc1 = Except.ok o1 →
          applyPairs sd2 m acc2 = Except.ok o2 → o1.map Prod.fst = o2.map Prod.fst) := by
  intro m
  induction m with
  | nil =>
    intro acc1 acc2 hacc
    refine ⟨rfl, ?_⟩
    intro o1 o2 h1 h2
    cases h1; cases h2
    exact hacc
  | cons q rest ih =>
    intro acc1 acc2 hacc
    obtain ⟨d, s⟩ := q
    have hds := hdom s
    cases hget1 : dictGet s sd1 with
    | none =>
      cases hget2 : dictGet s sd2 with
      | none =>
        rw [applyPairs, hget1, applyPairs, hget2]
        exact ⟨rfl, fun o1 o2 h1 _ => absurd h1 (by simp)⟩
      | some u => rw [hget1, hget2] at hds; simp at hds
    | some t =>
      cases hget2 : dictGet s sd2 with
      | none => rw [hget1, hget2] at hds; simp at hds
      | some u =>
        rw [applyPairs, hget1, applyPairs, hget2]
        exact ih (dictInsert d t acc1) (dictInsert d u acc2)
          (by rw [map_fst_dictInsert, map_fst_dictInsert, hacc])


theorem tagged_flatten_mem {beta : Type} (f : String → beta) :
    ∀ (ls : List (List String)) (ts : List beta),
      ls.length = ts.length →
      (∀ p ∈ ls.zip ts, ∀ x ∈ p.1, f x = p.2) →
      ∀ x ∈ ls.flatten, f x ∈ ts := by
  intro ls
  induction ls with
  | nil => intro ts _ _ x hx; simp at hx
  | cons l rest ih =>
    intro ts hlen hall x hx
    cases ts with
    | nil => simp at hlen
    | cons t ts2 =>
      rw [List.flatten_cons] at hx
      rcases List.mem_append.mp hx with hxl | hxr
      · exact List.mem_cons.mpr (Or.inl (hall (l, t) (by simp) x hxl))
      · refine List.mem_cons.mpr (Or.inr ?_)
        exact ih ts2 (by simpa using hlen)
          (fun p hp y hy => hall p (by simp [List.zip_cons_cons, hp]) y hy) x hxr

theorem nodup_flatten_tagged {beta : Type} (f : String → beta) :
    ∀ (ls : List (List String)) (ts : List beta),
      ls.length = ts.length →
      (∀ p ∈ ls.zip ts, (∀ x ∈ p.1, f x = p.2) ∧ p.1.Nodup) →
      ts.Nodup →
      ls.flatten.Nodup := by
  intro ls
  induction ls with
  | nil => intro ts _ _ _; simp
  | cons l rest ih =>
    intro ts hlen hall hts
    cases ts with
    | nil => simp at hlen
    | cons t ts2 =>
      rw [List.flatten_cons, List.nodup_append]
      have hhead := hall (l, t) (by simp)
      refine ⟨hhead.2, ?_, ?_⟩
      · exact ih ts2 (by simpa using hlen)
          (fun p hp => hall p (by simp [List.zip_cons_cons, hp]))
          (List.nodup_cons.mp hts).2
      · intro x hxl hxr
        have hx_t : f x = t := hhead.1 x hxl
        have hx_ts2 : f x ∈ ts2 :=
          tagged_flatten_mem f rest ts2 (by simpa using hlen)
            (fun p hp y hy => (hall p (by simp [List.zip_cons_cons, hp])).1 y hy) x hxr
        exact (List.nodup_cons.mp hts).1 (hx_t ▸ hx_ts2)

theorem tchDstKeys_nodup_10 : (tchDstKeys 10).Nodup := by
  have h : tchDstKeys 10 =
      ([convBlockPairs.map Prod.fst] ++ (List.range 10).map resDstKeys
        ++ [(valueHeadPairs 10).map Prod.fst, (policyHeadPairs 10).map Prod.fst]).flatten := by
    decide
  rw [h]
  exact nodup_flatten_tagged (keyPart 0) _
    ("conv_block".data :: (List.range 10).map (fun i => ("res_block_" ++ Nat.repr i).data)
      ++ ["value_head".data, "policy_head".data])
    (by decide) (by decide) (by decide)


theorem tchDstKeys_nodup_20 : (tchDstKeys 20).Nodup := by
  have h : tchDstKeys 20 =
      ([convBlockPairs.map Prod.fst] ++ (List.range 20).map resDstKeys
        ++ [(valueHeadPairs 20).map Prod.fst, (policyHeadPairs 20).map Prod.fst]).flatten := by
    decide
  rw [h]
  exact nodup_flatten_tagged (keyPart 0) _
    ("conv_block".data :: (List.range 20).map (fun i => ("res_block_" ++ Nat.repr i).data)
      ++ ["value_head".data, "policy_head".data])
    (by decide) (by decide) (by decide)

theorem pySrcKeys_nodup_10 : (pySrcKeys 10).Nodup := by
  have h : pySrcKeys 10 =
      ([(convBlockPairs.map Prod.snd).take 2, (convBlockPairs.map Prod.snd).drop 2]
        ++ (List.range 10).map resSrcKeys
        ++ [((valueHeadPairs 10).map Prod.snd).take 2,
            (((valueHeadPairs 10).map Prod.snd).drop 2).take 4,
            (((valueHeadPairs 10).map Prod.snd).drop 6).take 2,
            ((valueHeadPairs 10).map Prod.snd).drop 8,
            ((policyHeadPairs 10).map Prod.snd).take 2,
            (((policyHeadPairs 10).map Prod.snd).drop 2).take 4,
            ((policyHeadPairs 10).map Prod.snd).drop 6]).flatten := by
    decide
  rw [h]
  exact nodup_flatten_tagged (fun k => (splitDots k.data).take 2) _
    ([["convBlock1".data, "conv1".data], ["convBlock1".data, "bn1".data]]
      ++ (List.range 10).map (fun i => ["residualBlocks".data, (Nat.repr i).data])
      ++ [["valueHead".data, "conv1".data], ["valueHead".data, "bn1".data],
          ["valueHead".data, "fc1".data], ["valueHead".data, "fc2".data],
          ["policyHead".data, "conv1".data], ["policyHead".data, "bn1".data],
          ["policyHead".data, "fc1".data]])
    (by decide) (by decide) (by decide)

theorem pySrcKeys_nodup_20 : (pySrcKeys 20).Nodup := by
  have h : pySrcKeys 20 =
      ([(convBlockPairs.map Prod.snd).take 2, (convBlockPairs.map Prod.snd).drop 2]
        ++ (List.range 20).map resSrcKeys
        ++ [((valueHeadPairs 20).map Prod.snd).take 2,
            (((valueHeadPairs 20).map Prod.snd).drop 2).take 4,
            (((valueHeadPairs 20).map Prod.snd).drop 6).take 2,
            ((valueHeadPairs 20).map Prod.snd).drop 8,
            ((policyHeadPairs 20).map Prod.snd).take 2,
            (((policyHeadPairs 20).map Prod.snd).drop 2).take 4,
            ((policyHeadPairs 20).map Prod.snd).drop 6]).flatten := by
    decide
  rw [h]
  exact nodup_flatten_tagged (fun k => (splitDots k.data).take 2) _
    ([["convBlock1".data, "conv1".data], ["convBlock1".data, "bn1".data]]
      ++ (List.range 20).map (fun i => ["residualBlocks".data, (Nat.repr i).data])
      ++ [["valueHead".data, "conv1".data], ["valueHead".data, "bn1".data],
          ["valueHead".data, "fc1".data], ["valueHead".data, "fc2".data],
          ["policyHead".data, "conv1".data], ["policyHead".data, "bn1".data],
          ["policyHead".data, "fc1".data]])
    (by decide) (by decide) (by decide)


theorem tchDstKeys_10_eq : tchDstKeys 10 = dstKeySet10x128 := by decide

theorem tchDstKeys_20_eq : tchDstKeys 20 = dstKeySet20x256 := by decide

theorem tchDstKeys_1_eq : tchDstKeys 1 = dstKeySetOneBlock := by decide

theorem tchDstKeys_nodup_1 : (tchDstKeys 1).Nodup := by decide

theorem mem_tchMapping_of_mem_resBlockPairs (nb i : Nat) (h : i < nb)
    (p : String × String) (hp : p ∈ resBlockPairs i) : p ∈ tchMapping nb := by
  unfold tchMapping
  refine List.mem_append.mpr (Or.inl (List.mem_append.mpr (Or.inl
    (List.mem_append.mpr (Or.inr ?_)))))
  rw [List.mem_flatten]
  exact ⟨resBlockPairs i, List.mem_map_of_mem _ (List.mem_range.mpr h), hp⟩

theorem dictGet_isSome_eq_of_keys_eq {α β : Type} (l1 : List (String × α))
    (l2 : List (String × β)) (h : l1.map Prod.fst = l2.map Prod.fst) :
    ∀ k, (dictGet k l1).isSome = (dictGet k l2).isSome := by
  intro k
  cases h1 : (dictGet k l1).isSome with
  | true =>
    have := (dictGet_isSome_iff_mem k l1).mp h1
    rw [h] at this
    exact ((dictGet_isSome_iff_mem k l2).mpr this).symm
  | false =>
    cases h2 : (dictGet k l2).isSome with
    | true =>
      have := (dictGet_isSome_iff_mem k l2).mp h2
      rw [← h] at this
      rw [(dictGet_isSome_iff_mem k l1).mpr this] at h1
      exact absurd h1 (by simp)
    | false => rfl

/-- C1: for each supported preset (numBlocks = 10 / numFilters = 128 and
numBlocks = 20 / numFilters = 256), `convert_to_tch_format` applied to a
source checkpoint containing exactly the required source key set succeeds,
and its output key list is exactly the fixed, enumerable destination key
list of that preset — no extra keys and no missing keys. -/
theorem C1_preset_key_sets {α : Type} (state_dict : List (String × α)) (nb nf : Nat)
    (hp : (nb = 10 ∧ nf = 128) ∨ (nb = 20 ∧ nf = 256))
    (hkeys : (state_dict.map Prod.fst).Perm (pySrcKeys nb)) :
    ∃ out, convert_to_tch_format state_dict nb nf = Except.ok out ∧
      out.map Prod.fst = (if nb = 10 then dstKeySet10x128 else dstKeySet20x256) := by
  have hlook : ∀ p ∈ tchMapping nb, (dictGet p.2 state_dict).isSome = true := by
    intro p hp2
    rw [dictGet_isSome_iff_mem]
    exact hkeys.mem_iff.mpr (List.mem_map_of_mem Prod.snd hp2)
  have hnd : (([] : List (String × α)).map Prod.fst ++ (tchMapping nb).map Prod.fst).Nodup := by
    rcases hp with ⟨h10, _⟩ | ⟨h20, _⟩
    · subst h10; simpa [tchDstKeys] using tchDstKeys_nodup_10
    · subst h20; simpa [tchDstKeys] using tchDstKeys_nodup_20
  obtain ⟨out, hout, hkeys2⟩ := applyPairs_keys state_dict (tchMapping nb) [] hlook hnd
  refine ⟨out, hout, ?_⟩
  rw [hkeys2]
  rcases hp with ⟨h10, _⟩ | ⟨h20, _⟩
  · subst h10
    rw [if_pos rfl]
    simpa [tchDstKeys] using tchDstKeys_10_eq
  · subst h20
    rw [if_neg (by norm_num)]
    simpa [tchDstKeys] using tchDstKeys_20_eq

/-- Witness for C1 at the 10×128 preset with a concrete checkpoint. -/
theorem C1_preset_key_sets_witness :
    ∃ out, convert_to_tch_format sdTen 10 128 = Except.ok out ∧
      out.map Prod.fst = (if 10 = 10 then dstKeySet10x128 else dstKeySet20x256) :=
  C1_preset_key_sets sdTen 10 128 (Or.inl ⟨rfl, rfl⟩)
    (by have h : sdTen.map Prod.fst = pySrcKeys 10 := by
          rw [sdTen, List.map_map]
          exact List.map_id _
        rw [h])

/-- C2: for residual block index i with 1 ≤ i < numBlocks, the mapping
realized by `convert_to_tch_format` assigns destination numeric suffixes via
base = 20 + (i-1)*12 exactly as the source does (bn2.weight → weight__base,
bn2.bias → bias__(base+1), bn1.bias → bias__(base+4), conv2.weight →
weight__(base+5), bn1.weight → weight__(base+6), conv2.bias →
bias__(base+7), bn2.running_mean → running_mean__(base+8), bn2.running_var →
running_var__(base+9)), while block 0 uses the fixed literal suffixes
8, 9, 12, 13, 14, 15, 16, 17. -/
theorem C2_suffix_arithmetic (nb i : Nat) (h1 : 1 ≤ i) (h2 : i < nb) :
    ((("res_block_" ++ Nat.repr i ++ ".weight__" ++ Nat.repr (20 + (i - 1) * 12),
       "residualBlocks." ++ Nat.repr i ++ ".bn2.weight") ∈ tchMapping nb) ∧
     (("res_block_" ++ Nat.repr i ++ ".bias__" ++ Nat.repr (20 + (i - 1) * 12 + 1),
       "residualBlocks." ++ Nat.repr i ++ ".bn2.bias") ∈ tchMapping nb) ∧
     (("res_block_" ++ Nat.repr i ++ ".bias__" ++ Nat.repr (20 + (i - 1) * 12 + 4),
       "residualBlocks." ++ Nat.repr i ++ ".bn1.bias") ∈ tchMapping nb) ∧
     (("res_block_" ++ Nat.repr i ++ ".weight__" ++ Nat.repr (20 + (i - 1) * 12 + 5),
       "residualBlocks." ++ Nat.repr i ++ ".conv2.weight") ∈ tchMapping nb) ∧
     (("res_block_" ++ Nat.repr i ++ ".weight__" ++ Nat.repr (20 + (i - 1) * 12 + 6),
       "residualBlocks." ++ Nat.repr i ++ ".bn1.weight") ∈ tchMapping nb) ∧
     (("res_block_" ++ Nat.repr i ++ ".bias__" ++ Nat.repr (20 + (i - 1) * 12 + 7),
       "residualBlocks." ++ Nat.repr i ++ ".conv2.bias") ∈ tchMapping nb) ∧
     (("res_block_" ++ Nat.repr i ++ ".running_mean__" ++ Nat.repr (20 + (i - 1) * 12 + 8),
       "residualBlocks." ++ Nat.repr i ++ ".bn2.running_mean") ∈ tchMapping nb) ∧
     (("res_block_" ++ Nat.repr i ++ ".running_var__" ++ Nat.repr (20 + (i - 1) * 12 + 9),
       "residualBlocks." ++ Nat.repr i ++ ".bn2.running_var") ∈ tchMapping nb)) ∧
    (("res_block_0.weight__8", "residualBlocks.0.bn2.weight") ∈ tchMapping nb ∧
     ("res_block_0.bias__9", "residualBlocks.0.bn2.bias") ∈ tchMapping nb ∧
     ("res_block_0.bias__12", "residualBlocks.0.bn1.bias") ∈ tchMapping nb ∧
     ("res_block_0.weight__13", "residualBlocks.0.conv2.weight") ∈ tchMapping nb ∧
     ("res_block_0.weight__14", "residualBlocks.0.bn1.weight") ∈ tchMapping nb ∧
     ("res_block_0.bias__15", "residualBlocks.0.conv2.bias") ∈ tchMapping nb ∧
     ("res_block_0.running_mean__16", "residualBlocks.0.bn2.running_mean") ∈ tchMapping nb ∧
     ("res_block_0.running_var__17", "residualBlocks.0.bn2.running_var") ∈ tchMapping nb) := by
  have hi0 : ¬ i = 0 := by omega
  have h0 : (0 : Nat) < nb := by omega
  have hres : ∀ p ∈ resBlockPairs i, p ∈ tchMapping nb :=
    fun p hp => mem_tchMapping_of_mem_resBlockPairs nb i h2 p hp
  have hres0 : ∀ p ∈ resBlockPairs 0, p ∈ tchMapping nb :=
    fun p hp => mem_tchMapping_of_mem_resBlockPairs nb 0 h0 p hp
  refine ⟨⟨?_, ?_, ?_, ?_, ?_, ?_, ?_, ?_⟩, ?_, ?_, ?_, ?_, ?_, ?_, ?_, ?_⟩ <;>
    first
      | (apply hres; simp [resBlockPairs, hi0]; done)
      | (apply hres0; decide)

/-- Witness for C2 at nb = 2, i = 1. -/
theorem C2_suffix_arithmetic_witness :
    ("res_block_" ++ Nat.repr 1 ++ ".weight__" ++ Nat.repr (20 + (1 - 1) * 12),
      "residualBlocks." ++ Nat.repr 1 ++ ".bn2.weight") ∈ tchMapping 2 ∧
    ("res_block_0.weight__8", "residualBlocks.0.bn2.weight") ∈ tchMapping 2 :=
  ⟨(C2_suffix_arithmetic 2 1 (by decide) (by decide)).1.1,
   (C2_suffix_arithmetic 2 1 (by decide) (by decide)).2.1⟩


/-- C3: every tensor stored under a destination key produced by
`convert_to_tch_format` is exactly the tensor of the source key it was
mapped from; the conversion performs no computation on tensor values. -/
theorem C3_tensor_preservation {α : Type} (state_dict : List (String × α))
    (nb nf : Nat) (out : List (String × α))
    (hout : convert_to_tch_format state_dict nb nf = Except.ok out) :
    ∀ dst t, dictGet dst out = some t →
      ∃ src, (dst, src) ∈ tchMapping nb ∧ dictGet src state_dict = some t := by
  intro dst t h
  rcases applyPairs_values state_dict (tchMapping nb) [] out hout dst t h with hacc | h2
  · simp [dictGet] at hacc
  · exact h2

/-- Witness for C3 at a concrete conversion. -/
theorem C3_tensor_preservation_witness :
    ∃ src, (("conv_block.weight" : String), src) ∈ tchMapping 1 ∧
      dictGet src sdOne = some 0 :=
  C3_tensor_preservation sdOne 1 128 outOne rfl "conv_block.weight" 0 (by decide)

/-- Counterexample to C4: with numFilters = 64 the conversion does not fail
at all — on a checkpoint with the required keys for numBlocks = 1 it
succeeds, so no `UnknownTopologyError` behaviour exists in the code. -/
theorem C4_counterexample : (convert_to_tch_format sdOne 1 64).isOk = true := by decide

/-- C4 (amended): `convert_to_tch_format` never consults numFilters and
defines no topology check: with numFilters = 64 and any numBlocks it
succeeds whenever the source checkpoint has every required key. -/
theorem C4_no_topology_check {α : Type} (state_dict : List (String × α)) (nb : Nat)
    (h : ∀ k ∈ pySrcKeys nb, (dictGet k state_dict).isSome = true) :
    ∃ out, convert_to_tch_format state_dict nb 64 = Except.ok out := by
  apply applyPairs_isOk
  intro p hp
  exact h p.2 (List.mem_map_of_mem Prod.snd hp)

/-- Witness for amended C4. -/
theorem C4_no_topology_check_witness :
    ∃ out, convert_to_tch_format sdOne 1 64 = Except.ok out :=
  C4_no_topology_check sdOne 1 (by decide)

/-- Counterexample to C5: for the numBlocks = 1 scenario the output has 36
keys, not 35, and does not contain the 10×128 head key
`value_head.weight__128` (numBlocks = 1 selects the 20×256 head preset). -/
theorem C5_counterexample :
    (convert_to_tch_format sdOne 1 128).toOption.map
      (fun out => (out.length, (out.map Prod.fst).contains "value_head.weight__128"))
      = some (36, false) := by decide

/-- C5 (amended): for a source checkpoint with numBlocks = 1 containing
exactly the required keys, the output key list is exactly the six conv_block
keys, the twelve res_block_0 keys, and the ten value-head plus eight
policy-head keys of the 20×256 preset — 36 keys total. -/
theorem C5_one_block_output {α : Type} (state_dict : List (String × α))
    (hkeys : (state_dict.map Prod.fst).Perm (pySrcKeys 1)) :
    ∃ out, convert_to_tch_format state_dict 1 128 = Except.ok out ∧
      out.map Prod.fst = dstKeySetOneBlock := by
  have hlook : ∀ p ∈ tchMapping 1, (dictGet p.2 state_dict).isSome = true := by
    intro p hp2
    rw [dictGet_isSome_iff_mem]
    exact hkeys.mem_iff.mpr (List.mem_map_of_mem Prod.snd hp2)
  have hnd : (([] : List (String × α)).map Prod.fst ++ (tchMapping 1).map Prod.fst).Nodup := by
    simpa [tchDstKeys] using tchDstKeys_nodup_1
  obtain ⟨out, hout, hkeys2⟩ := applyPairs_keys state_dict (tchMapping 1) [] hlook hnd
  refine ⟨out, hout, ?_⟩
  rw [hkeys2]
  simpa [tchDstKeys] using tchDstKeys_1_eq

/-- Witness for amended C5. -/
theorem C5_one_block_output_witness :
    ∃ out, convert_to_tch_format sdOne 1 128 = Except.ok out ∧
      out.map Prod.fst = dstKeySetOneBlock :=
  C5_one_block_output sdOne
    (by have h : sdOne.map Prod.fst = pySrcKeys 1 := by
          rw [sdOne, List.map_map]
          exact List.map_id _
        rw [h])

/-- C6: if the source checkpoint is missing exactly one required source key
k (all other required keys present), `convert_to_tch_format` fails with the
error naming exactly k (Python raises `KeyError(k)`), and produces no
output. -/
theorem C6_missing_key_error {α : Type} (state_dict : List (String × α))
    (nb nf : Nat) (k : String) (hk : k ∈ pySrcKeys nb)
    (hmiss : dictGet k state_dict = none)
    (hrest : ∀ k2 ∈ pySrcKeys nb, k2 ≠ k → (dictGet k2 state_dict).isSome = true) :
    convert_to_tch_format state_dict nb nf = Except.error k := by
  apply applyPairs_error state_dict k hmiss
  · obtain ⟨p, hp, hpk⟩ := List.mem_map.mp hk
    exact ⟨p, hp, hpk⟩
  · intro p hp h
    exact hrest p.2 (List.mem_map_of_mem Prod.snd hp) h

/-- Witness for C6: dropping `residualBlocks.0.bn2.running_var` from the
numBlocks = 1 checkpoint yields exactly that key as the error. -/
theorem C6_missing_key_error_witness :
    convert_to_tch_format sdOneMissing 1 128
      = Except.error "residualBlocks.0.bn2.running_var" :=
  C6_missing_key_error sdOneMissing 1 128 "residualBlocks.0.bn2.running_var"
    (by decide) (by decide) (by decide)


/-- C7: for each supported preset, the name mapping realized by
`convert_to_tch_format` is a bijection between the required source key set
and the produced destination key set: the destination keys are pairwise
distinct, the source keys are pairwise distinct, two mapping entries
agreeing on either component are equal, and every required source key is
used exactly once. -/
theorem C7_bijection (nb nf : Nat)
    (hp : (nb = 10 ∧ nf = 128) ∨ (nb = 20 ∧ nf = 256)) :
    (tchDstKeys nb).Nodup ∧ (pySrcKeys nb).Nodup ∧
    (∀ p ∈ tchMapping nb, ∀ q ∈ tchMapping nb, p.1 = q.1 ∨ p.2 = q.2 → p = q) ∧
    (∀ s ∈ pySrcKeys nb, List.count s (pySrcKeys nb) = 1) := by
  have hdst : (tchDstKeys nb).Nodup := by
    rcases hp with ⟨h10, _⟩ | ⟨h20, _⟩
    · subst h10; exact tchDstKeys_nodup_10
    · subst h20; exact tchDstKeys_nodup_20
  have hsrc : (pySrcKeys nb).Nodup := by
    rcases hp with ⟨h10, _⟩ | ⟨h20, _⟩
    · subst h10; exact pySrcKeys_nodup_10
    · subst h20; exact pySrcKeys_nodup_20
  refine ⟨hdst, hsrc, ?_, ?_⟩
  · intro p hpm q hqm hor
    rcases hor with h1 | h2
    · exact List.inj_on_of_nodup_map (tchDstKeys.eq_def nb ▸ hdst) hpm hqm h1
    · exact List.inj_on_of_nodup_map (pySrcKeys.eq_def nb ▸ hsrc) hpm hqm h2
  · intro s hs
    exact List.count_eq_one_of_mem hsrc hs

/-- Witness for C7 at the 10×128 preset. -/
theorem C7_bijection_witness :
    (tchDstKeys 10).Nodup ∧ (pySrcKeys 10).Nodup ∧
    (∀ p ∈ tchMapping 10, ∀ q ∈ tchMapping 10, p.1 = q.1 ∨ p.2 = q.2 → p = q) ∧
    (∀ s ∈ pySrcKeys 10, List.count s (pySrcKeys 10) = 1) :=
  C7_bijection 10 128 (Or.inl ⟨rfl, rfl⟩)

/-- C8: the key mapping is data-independent: two source checkpoints with
identical key domains (any tensor values) either both fail or both succeed
with identical output key lists, and in each output every destination key
holds the tensor taken from its own input under the mapped source key. -/
theorem C8_data_independence {α β : Type} (sd1 : List (String × α))
    (sd2 : List (String × β)) (nb nf : Nat)
    (hdom : ∀ k, (dictGet k sd1).isSome = (dictGet k sd2).isSome) :
    (convert_to_tch_format sd1 nb nf).isOk = (convert_to_tch_format sd2 nb nf).isOk ∧
    (∀ o1 o2, convert_to_tch_format sd1 nb nf = Except.ok o1 →
      convert_to_tch_format sd2 nb nf = Except.ok o2 →
      o1.map Prod.fst = o2.map Prod.fst ∧
      (∀ dst t1, dictGet dst o1 = some t1 →
        ∃ src, (dst, src) ∈ tchMapping nb ∧ dictGet src sd1 = some t1) ∧
      (∀ dst t2, dictGet dst o2 = some t2 →
        ∃ src, (dst, src) ∈ tchMapping nb ∧ dictGet src sd2 = some t2)) := by
  have hd := applyPairs_domain sd1 sd2 hdom (tchMapping nb) [] [] rfl
  refine ⟨hd.1, ?_⟩
  intro o1 o2 h1 h2
  refine ⟨hd.2 o1 o2 h1 h2, ?_, ?_⟩
  · intro dst t h
    rcases applyPairs_values sd1 (tchMapping nb) [] o1 h1 dst t h with hacc | hok
    · simp [dictGet] at hacc
    · exact hok
  · intro dst t h
    rcases applyPairs_values sd2 (tchMapping nb) [] o2 h2 dst t h with hacc | hok
    · simp [dictGet] at hacc
    · exact hok

/-- Witness for C8 on two concrete checkpoints with equal keys and
different tensor values. -/
theorem C8_data_independence_witness :
    (convert_to_tch_format sdOne 1 128).isOk = (convert_to_tch_format sdOneB 1 128).isOk ∧
    (∀ o1 o2, convert_to_tch_format sdOne 1 128 = Except.ok o1 →
      convert_to_tch_format sdOneB 1 128 = Except.ok o2 →
      o1.map Prod.fst = o2.map Prod.fst ∧
      (∀ dst t1, dictGet dst o1 = some t1 →
        ∃ src, (dst, src) ∈ tchMapping 1 ∧ dictGet src sdOne = some t1) ∧
      (∀ dst t2, dictGet dst o2 = some t2 →
        ∃ src, (dst, src) ∈ tchMapping 1 ∧ dictGet src sdOneB = some t2)) :=
  C8_data_independence sdOne sdOneB 1 128
    (dictGet_isSome_eq_of_keys_eq sdOne sdOneB rfl)

/-- C10: the head-suffix preset is selected solely by whether numBlocks
equals 10: the numFilters argument is never consulted, and for every
numBlocks other than 10 the head mappings are exactly the 20×256 tables,
whose numeric-suffix entries (weight__248, bias__249, weight__253,
bias__252, weight__255, bias__254, weight__258, bias__259, weight__263,
bias__262) all appear in the realized mapping. -/
theorem C10_head_preset_selection :
    (∀ (state_dict : List (String × Nat)) (nb nf1 nf2 : Nat),
        convert_to_tch_format state_dict nb nf1 = convert_to_tch_format state_dict nb nf2) ∧
    (∀ nb, nb ≠ 10 →
      valueHeadPairs nb = valueHeadPairs 20 ∧
      policyHeadPairs nb = policyHeadPairs 20 ∧
      (("value_head.weight__248", "valueHead.bn1.weight") ∈ tchMapping nb ∧
       ("value_head.bias__249", "valueHead.bn1.bias") ∈ tchMapping nb ∧
       ("value_head.weight__253", "valueHead.fc1.weight") ∈ tchMapping nb ∧
       ("value_head.bias__252", "valueHead.fc1.bias") ∈ tchMapping nb ∧
       ("value_head.weight__255", "valueHead.fc2.weight") ∈ tchMapping nb ∧
       ("value_head.bias__254", "valueHead.fc2.bias") ∈ tchMapping nb ∧
       ("policy_head.weight__258", "policyHead.bn1.weight") ∈ tchMapping nb ∧
       ("policy_head.bias__259", "policyHead.bn1.bias") ∈ tchMapping nb ∧
       ("policy_head.weight__263", "policyHead.fc1.weight") ∈ tchMapping nb ∧
       ("policy_head.bias__262", "policyHead.fc1.bias") ∈ tchMapping nb)) := by
  constructor
  · intro state_dict nb nf1 nf2
    rfl
  · intro nb h
    have hv : valueHeadPairs nb = valueHeadPairs 20 := by
      simp [valueHeadPairs, h]
    have hpol : policyHeadPairs nb = policyHeadPairs 20 := by
      simp [policyHeadPairs, h]
    have hmemv : ∀ p ∈ valueHeadPairs 20, p ∈ tchMapping nb := by
      intro p hp
      unfold tchMapping
      rw [hv]
      exact List.mem_append.mpr (Or.inl (List.mem_append.mpr (Or.inr hp)))
    have hmemp : ∀ p ∈ policyHeadPairs 20, p ∈ tchMapping nb := by
      intro p hp
      unfold tchMapping
      rw [hpol]
      exact List.mem_append.mpr (Or.inr hp)
    exact ⟨hv, hpol,
      hmemv _ (by decide), hmemv _ (by decide), hmemv _ (by decide),
      hmemv _ (by decide), hmemv _ (by decide), hmemv _ (by decide),
      hmemp _ (by decide), hmemp _ (by decide), hmemp _ (by decide),
      hmemp _ (by decide)⟩

/-- Witness for C10 at nb = 5, nf = 64 and 999. -/
theorem C10_head_preset_selection_witness :
    convert_to_tch_format sdOne 5 64 = convert_to_tch_format sdOne 5 999 ∧
    valueHeadPairs 5 = valueHeadPairs 20 ∧
    ("value_head.weight__248", "valueHead.bn1.weight") ∈ tchMapping 5 :=
  ⟨C10_head_preset_selection.1 sdOne 5 64 999,
   (C10_head_preset_selection.2 5 (by decide)).1,
   (C10_head_preset_selection.2 5 (by decide)).2.2.1⟩


theorem digitChar_isDigit : ∀ m, m < 10 → (Nat.digitChar m).isDigit = true := by decide

theorem digitChar_val : ∀ m, m < 10 → (Nat.digitChar m).toNat - 48 = m := by decide

theorem toDigitsCore_append :
    ∀ (f n : Nat) (l : List Char),
      Nat.toDigitsCore 10 f n l = Nat.toDigitsCore 10 f n [] ++ l := by
  intro f
  induction f with
  | zero => intro n l; simp [Nat.toDigitsCore]
  | succ f ih =>
    intro n l
    simp only [Nat.toDigitsCore]
    by_cases h : n / 10 = 0
    · simp [h]
    · rw [if_neg h, if_neg h, ih (n / 10) (Nat.digitChar (n % 10) :: l),
        ih (n / 10) [Nat.digitChar (n % 10)]]
      simp

theorem toDigitsCore_all_digits :
    ∀ (f n : Nat) (l : List Char), (∀ c ∈ l, c.isDigit = true) →
      ∀ c ∈ Nat.toDigitsCore 10 f n l, c.isDigit = true := by
  intro f
  induction f with
  | zero => intro n l hl; simpa [Nat.toDigitsCore] using hl
  | succ f ih =>
    intro n l hl
    simp only [Nat.toDigitsCore]
    have hd : (Nat.digitChar (n % 10)).isDigit = true :=
      digitChar_isDigit _ (Nat.mod_lt _ (by norm_num))
    by_cases h : n / 10 = 0
    · rw [if_pos h]
      intro c hc
      rcases List.mem_cons.mp hc with rfl | hc
      · exact hd
      · exact hl c hc
    · rw [if_neg h]
      apply ih
      intro c hc
      rcases List.mem_cons.mp hc with rfl | hc
      · exact hd
      · exact hl c hc

theorem toDigitsCore_ne_nil :
    ∀ (f n : Nat) (l : List Char), l ≠ [] → Nat.toDigitsCore 10 f n l ≠ [] := by
  intro f
  induction f with
  | zero => intro n l hl; simpa [Nat.toDigitsCore] using hl
  | succ f ih =>
    intro n l hl
    simp only [Nat.toDigitsCore]
    by_cases h : n / 10 = 0
    · simp [h]
    · rw [if_neg h]
      exact ih (n / 10) _ (by simp)

theorem toDigits_ne_nil (n : Nat) : Nat.toDigits 10 n ≠ [] := by
  unfold Nat.toDigits
  simp only [Nat.toDigitsCore]
  by_cases h : n / 10 = 0
  · simp [h]
  · rw [if_neg h]
    exact toDigitsCore_ne_nil _ _ _ (by simp)

theorem foldl_parse_shift :
    ∀ (cs : List Char) (a : Nat),
      cs.foldl (fun x c => x * 10 + (c.toNat - 48)) a
        = a * 10 ^ cs.length + cs.foldl (fun x c => x * 10 + (c.toNat - 48)) 0 := by
  intro cs
  induction cs with
  | nil => intro a; simp
  | cons c cs ih =>
    intro a
    simp only [List.foldl_cons, List.length_cons]
    rw [ih (a * 10 + (c.toNat - 48)), ih (0 * 10 + (c.toNat - 48))]
    ring

theorem toDigitsCore_val :
    ∀ (f n : Nat), n < f →
      (Nat.toDigitsCore 10 f n []).foldl (fun x c => x * 10 + (c.toNat - 48)) 0 = n := by
  intro f
  induction f with
  | zero => intro n h; omega
  | succ f ih =>
    intro n h
    simp only [Nat.toDigitsCore]
    by_cases h0 : n / 10 = 0
    · rw [if_pos h0]
      simp only [List.foldl_cons, List.foldl_nil]
      rw [digitChar_val _ (Nat.mod_lt _ (by norm_num))]
      omega
    · rw [if_neg h0]
      rw [toDigitsCore_append f (n / 10) [Nat.digitChar (n % 10)]]
      rw [List.foldl_append]
      rw [ih (n / 10) (by omega)]
      simp only [List.foldl_cons, List.foldl_nil]
      rw [digitChar_val _ (Nat.mod_lt _ (by norm_num))]
      omega

theorem parse_repr (n : Nat) : parseIntChars ((Nat.repr n).data) = some n := by
  show parseIntChars (Nat.toDigits 10 n) = some n
  unfold Nat.toDigits
  unfold parseIntChars
  rw [if_neg (by simpa [Nat.toDigits] using toDigits_ne_nil n)]
  rw [if_pos (List.all_eq_true.mpr (fun c hc =>
    toDigitsCore_all_digits (n + 1) n [] (by simp) c hc))]
  rw [toDigitsCore_val (n + 1) n (Nat.lt_succ_self n)]

theorem repr_no_dot (n : Nat) : '.' ∉ (Nat.repr n).data := by
  intro hmem
  have : ('.' : Char).isDigit = true :=
    toDigitsCore_all_digits (n + 1) n [] (by simp) _ hmem
  simp at this

theorem strData_append (s t : String) : (s ++ t).data = s.data ++ t.data := by
  cases s; cases t; rfl

theorem isPrefixOf_append_self : ∀ (l r : List Char), l.isPrefixOf (l ++ r) = true := by
  intro l
  induction l with
  | nil => intro r; simp [List.isPrefixOf]
  | cons c l ih => intro r; simp [List.isPrefixOf, ih]

theorem splitDots_append : ∀ (l1 l2 : List Char), '.' ∉ l1 →
    splitDots (l1 ++ '.' :: l2) = l1 :: splitDots l2 := by
  intro l1
  induction l1 with
  | nil => intro l2 _; simp [splitDots]
  | cons c l1 ih =>
    intro l2 h
    have hc : ¬ c = '.' := fun hh => h (by rw [hh]; exact List.mem_cons_self _ _)
    have htail : '.' ∉ l1 := fun hh => h (List.mem_cons_of_mem _ hh)
    rw [List.cons_append]
    show splitDots (c :: (l1 ++ '.' :: l2)) = (c :: l1) :: splitDots l2
    rw [splitDots, if_neg hc, ih l2 htail]

theorem resSrcKeys_eq (i : Nat) :
    resSrcKeys i =
      [("residualBlocks." ++ Nat.repr i) ++ ".conv1.weight",
       ("residualBlocks." ++ Nat.repr i) ++ ".conv1.bias",
       ("residualBlocks." ++ Nat.repr i) ++ ".bn1.running_mean",
       ("residualBlocks." ++ Nat.repr i) ++ ".bn1.running_var",
       ("residualBlocks." ++ Nat.repr i) ++ ".bn2.weight",
       ("residualBlocks." ++ Nat.repr i) ++ ".bn2.bias",
       ("residualBlocks." ++ Nat.repr i) ++ ".bn1.bias",
       ("residualBlocks." ++ Nat.repr i) ++ ".conv2.weight",
       ("residualBlocks." ++ Nat.repr i) ++ ".bn1.weight",
       ("residualBlocks." ++ Nat.repr i) ++ ".conv2.bias",
       ("residualBlocks." ++ Nat.repr i) ++ ".bn2.running_mean",
       ("residualBlocks." ++ Nat.repr i) ++ ".bn2.running_var"] := by
  by_cases h : i = 0
  · subst h; decide
  · simp [resSrcKeys, resBlockPairs, h]

theorem resSrcKeys_ne_nil (i : Nat) : (resSrcKeys i).isEmpty = false := by
  rw [resSrcKeys_eq]
  rfl

theorem res_key_data (i : Nat) (suf : String) (tail : List Char)
    (hs : suf.data = '.' :: tail) :
    (("residualBlocks." ++ Nat.repr i) ++ suf).data
      = "residualBlocks".data ++ '.' :: ((Nat.repr i).data ++ '.' :: tail) := by
  rw [strData_append, strData_append, hs]
  have h1 : ("residualBlocks." : String).data = "residualBlocks".data ++ ['.'] := rfl
  rw [h1]
  simp [List.append_assoc]

theorem resSrcKeys_data (i : Nat) :
    ∀ k ∈ resSrcKeys i, ∃ tail : List Char,
      k.data = "residualBlocks".data ++ '.' :: ((Nat.repr i).data ++ '.' :: tail) := by
  intro k hk
  rw [resSrcKeys_eq] at hk
  simp only [List.mem_cons, List.not_mem_nil, or_false] at hk
  rcases hk with rfl | rfl | rfl | rfl | rfl | rfl | rfl | rfl | rfl | rfl | rfl | rfl <;>
    exact ⟨_, res_key_data i _ _ rfl⟩

theorem blockIndexOf_res (i : Nat) : ∀ k ∈ resSrcKeys i, blockIndexOf k = some i := by
  intro k hk
  obtain ⟨tail, hdata⟩ := resSrcKeys_data i k hk
  unfold blockIndexOf
  rw [hdata, splitDots_append _ _ (by decide), splitDots_append _ _ (repr_no_dot i)]
  simp [parse_repr i]

theorem pyStartsWith_res (i : Nat) : ∀ k ∈ resSrcKeys i, pyStartsWith k "residualBlocks." = true := by
  intro k hk
  obtain ⟨tail, hdata⟩ := resSrcKeys_data i k hk
  unfold pyStartsWith
  rw [hdata]
  have h1 : ("residualBlocks." : String).data = "residualBlocks".data ++ ['.'] := rfl
  rw [h1]
  have h2 : "residualBlocks".data ++ '.' :: ((Nat.repr i).data ++ '.' :: tail)
      = ("residualBlocks".data ++ ['.']) ++ ((Nat.repr i).data ++ '.' :: tail) := by
    simp [List.append_assoc]
  rw [h2]
  exact isPrefixOf_append_self _ _

theorem foldl_max_map_const :
    ∀ (xs : List String) (a i : Nat),
      (xs.map (fun _ => i)).foldl Nat.max a = if xs.isEmpty then a else Nat.max a i := by
  intro xs
  induction xs with
  | nil => intro a i; simp
  | cons x xs ih =>
    intro a i
    simp only [List.map_cons, List.foldl_cons, List.isEmpty_cons]
    rw [ih]
    by_cases h : xs.isEmpty
    · simp [h]
    · simp only [h, if_false, Bool.false_eq_true]
      show max (max a i) i = max a i
      rw [Nat.max_assoc, Nat.max_self]

theorem idx_map_eq (I : List Nat) :
    (I.flatMap resSrcKeys).map blockIndexOf
      = I.flatMap (fun i => (resSrcKeys i).map (fun _ => some i)) := by
  induction I with
  | nil => rfl
  | cons i I2 ih =>
    rw [List.flatMap_cons, List.flatMap_cons, List.map_append, ih]
    congr 1
    exact List.map_congr_left (fun k hk => blockIndexOf_res i k hk)

theorem all_isSome_flat (I : List Nat) :
    (I.flatMap (fun i => (resSrcKeys i).map (fun _ => some i))).all Option.isSome = true := by
  rw [List.all_eq_true]
  intro o ho
  obtain ⟨i, _, hoi⟩ := List.mem_flatMap.mp ho
  obtain ⟨k, _, rfl⟩ := List.mem_map.mp hoi
  rfl

theorem getD_fold (I : List Nat) :
    ∀ a, (((I.flatMap (fun i => (resSrcKeys i).map (fun _ => some i))).map
        (fun o => o.getD 0)).foldl Nat.max a) = I.foldl Nat.max a := by
  induction I with
  | nil => intro a; rfl
  | cons i I2 ih =>
    intro a
    rw [List.flatMap_cons, List.map_append, List.foldl_append, List.map_map]
    have h1 : (resSrcKeys i).map ((fun o : Option Nat => o.getD 0) ∘ (fun _ => some i))
        = (resSrcKeys i).map (fun _ => i) := rfl
    rw [h1, foldl_max_map_const, resSrcKeys_ne_nil i]
    simp only [Bool.false_eq_true, if_false]
    rw [ih, List.foldl_cons]

theorem filter_canonical (I : List Nat) :
    (canonicalSrcKeys I).filter (fun k => pyStartsWith k "residualBlocks.")
      = I.flatMap resSrcKeys := by
  unfold canonicalSrcKeys
  rw [List.filter_append, List.filter_append, List.filter_append]
  have h1 : (convBlockPairs.map Prod.snd).filter
      (fun k => pyStartsWith k "residualBlocks.") = [] := by decide
  have h2 : ((valueHeadPairs 20).map Prod.snd).filter
      (fun k => pyStartsWith k "residualBlocks.") = [] := by decide
  have h3 : ((policyHeadPairs 20).map Prod.snd).filter
      (fun k => pyStartsWith k "residualBlocks.") = [] := by decide
  have h4 : (I.flatMap resSrcKeys).filter (fun k => pyStartsWith k "residualBlocks.")
      = I.flatMap resSrcKeys := by
    apply List.filter_eq_self.mpr
    intro k hk
    obtain ⟨i, _, hki⟩ := List.mem_flatMap.mp hk
    exact pyStartsWith_res i k hki
  rw [h1, h2, h3, h4]
  simp

theorem detect_blocks_canonical (I : List Nat) (hI : I ≠ []) :
    detect_num_blocks (canonicalSrcKeys I) = some (I.foldl Nat.max 0 + 1) := by
  have hne : (I.flatMap resSrcKeys).isEmpty = false := by
    cases I with
    | nil => exact absurd rfl hI
    | cons i I2 =>
      rw [List.flatMap_cons, resSrcKeys_eq]
      rfl
  unfold detect_num_blocks
  rw [filter_canonical I, hne, idx_map_eq I, all_isSome_flat I, getD_fold I 0]
  simp

theorem flatten_map_snd (L : List Nat) :
    (((L.map resBlockPairs).flatten).map Prod.snd) = L.flatMap resSrcKeys := by
  induction L with
  | nil => rfl
  | cons i L2 ih =>
    rw [List.map_cons, List.flatten_cons, List.map_append, ih, List.flatMap_cons]
    rfl

theorem canonicalSrcKeys_range (nb : Nat) :
    canonicalSrcKeys (List.range nb) = pySrcKeys nb := by
  have hval : ((valueHeadPairs 20).map Prod.snd) = (valueHeadPairs nb).map Prod.snd := by
    by_cases h : nb = 10
    · subst h; decide
    · simp [valueHeadPairs, h]
  have hpol : ((policyHeadPairs 20).map Prod.snd) = (policyHeadPairs nb).map Prod.snd := by
    by_cases h : nb = 10
    · subst h; decide
    · simp [policyHeadPairs, h]
  unfold canonicalSrcKeys pySrcKeys tchMapping
  rw [List.map_append, List.map_append, List.map_append, flatten_map_snd, hval, hpol]

/-- C9: the topology parameters are derived from the source checkpoint as
num_blocks = 1 + (maximum residual-block index occurring in the keys) and
num_filters = first shape component of the `convBlock1.conv1.weight`
tensor: for a checkpoint whose residual-block indices are exactly the
nonempty list I, detection returns `I.foldl Nat.max 0 + 1` blocks and the
head of the stem convolution weight shape. -/
theorem C9_topology_detection (I : List Nat) (state_dict : List (String × Tensor))
    (t : Tensor) (nf : Nat) (hI : I ≠ [])
    (hkeys : state_dict.map Prod.fst = canonicalSrcKeys I)
    (ht : dictGet "convBlock1.conv1.weight" state_dict = some t)
    (hshape : t.shape.head? = some nf) :
    detect_num_blocks (state_dict.map Prod.fst) = some (I.foldl Nat.max 0 + 1) ∧
    detect_num_filters state_dict = some nf := by
  constructor
  · rw [hkeys]
    exact detect_blocks_canonical I hI
  · unfold detect_num_filters
    rw [ht]
    exact hshape

/-- Witness for C9 at a one-block checkpoint with 128 filters. -/
theorem C9_topology_detection_witness :
    detect_num_blocks (sdOneT.map Prod.fst) = some ([0].foldl Nat.max 0 + 1) ∧
    detect_num_filters sdOneT = some 128 :=
  C9_topology_detection [0] sdOneT ⟨[128, 18, 3, 3]⟩ 128 (by decide)
    (by rw [sdOneT, List.map_map]; exact List.map_id _) (by decide) rfl

end Titan
